import Mathlib

set_option autoImplicit false

namespace MeetingAnalyzer

/-! ## Python string primitives

Shallow embedding of the Python string operations used by the repository:
`str.split()` (whitespace split, empty pieces dropped), `" ".join`,
`l[-n:]`, `str.lower()`, the substring test `a in b`, and `str.strip()`. -/

/-- Characters treated as whitespace by Python `str.split()` / `str.strip()`. -/
def isPySpace (c : Char) : Bool :=
  c = ' ' || c = '\t' || c = '\n' || c = '\r' || c = '\x0b' || c = '\x0c'

/-- Helper for `pySplit`: walks the character list accumulating the current word. -/
def splitWordsAux : List Char → List Char → List (List Char)
  | [], acc => if acc.isEmpty then [] else [acc.reverse]
  | c :: cs, acc =>
    if isPySpace c then
      if acc.isEmpty then splitWordsAux cs [] else acc.reverse :: splitWordsAux cs []
    else splitWordsAux cs (c :: acc)

/-- Python `text.split()`: split on whitespace runs, dropping empty pieces. -/
def pySplit (s : String) : List String :=
  (splitWordsAux s.toList []).map (fun w => String.mk w)

/-- Python `" ".join(parts)`. -/
def joinSp (parts : List String) : String :=
  String.intercalate " " parts

/-- Python `l[-n:]` for a positive literal `n`: the last `n` elements
(the whole list when it has fewer than `n` elements).  Implemented as
take-from-the-right; `lastN_eq_drop` below shows this equals the
`drop (length - n)` reading of the slice. -/
def lastN {α : Type} (n : Nat) (l : List α) : List α :=
  (l.reverse.take n).reverse

/-- `lastN` agrees with the `l[len-n:]` reading of Python's negative slice. -/
theorem lastN_eq_drop {α : Type} (n : Nat) (l : List α) :
    lastN n l = l.drop (l.length - n) := by
  rw [lastN, List.reverse_take]
  simp

/-- Python `s.lower()` (ASCII case folding suffices for this code base). -/
def pyLower (s : String) : String :=
  String.mk (s.toList.map Char.toLower)

/-- Helper for `pyIn`: list-prefix test on characters. -/
def prefixCheck : List Char → List Char → Bool
  | [], _ => true
  | _ :: _, [] => false
  | a :: as, b :: bs => a == b && prefixCheck as bs

/-- Helper for `pyIn`: does `n` occur as a contiguous infix of `h`? -/
def infixCheck : List Char → List Char → Bool
  | n, [] => prefixCheck n []
  | n, b :: bs => prefixCheck n (b :: bs) || infixCheck n bs

/-- Python substring test `needle in hay`. -/
def pyIn (needle hay : String) : Bool :=
  infixCheck needle.toList hay.toList

/-- Python `s.strip()`: remove leading and trailing whitespace. -/
def pyStrip (s : String) : String :=
  String.mk (((s.toList.dropWhile isPySpace).reverse.dropWhile isPySpace).reverse)

/-! ## Shared summarizer configuration and helpers

The two summarizer modules (`summarizer.py`, `summarizer_2.py`) use literally
identical configuration constants and an identical trim loop inside
`_create_rolling_summary`, so these are embedded once. -/

/-- `WORDS_PER_ANALYSIS = 50` (summarizer.py line 22, summarizer_2.py line 12). -/
def WORDS_PER_ANALYSIS : Nat := 50

/-- `WORDS_PER_ROLLING_SUMMARY = 300` (summarizer.py line 23, summarizer_2.py line 13). -/
def WORDS_PER_ROLLING_SUMMARY : Nat := 300

/-- `MAX_PRIOR_SUMMARY_WORDS = 1000` (summarizer.py line 27, summarizer_2.py line 16). -/
def MAX_PRIOR_SUMMARY_WORDS : Nat := 1000

/-- `sum(len(s.split()) for s in summaries)`. -/
def summaryWords (summaries : List String) : Nat :=
  (summaries.map (fun s => (pySplit s).length)).sum

/-- The `while total_summary_words > MAX_PRIOR_SUMMARY_WORDS: pop(0)` loop of
`_create_rolling_summary`, with the running total carried exactly as in the
source (decremented by the popped summary's word count).  The `[], _` case
models the fact that `pop(0)` is never reached on an empty list: when the list
is empty the true running total is `0`, so the loop guard is false. -/
def trimLoop : List String → Int → List String
  | [], _ => []
  | h :: t, total =>
    if total > (MAX_PRIOR_SUMMARY_WORDS : Int) then
      trimLoop t (total - ((pySplit h).length : Int))
    else h :: t

/-- One recorded call to the completion capability, in the order the calls are
issued: a rolling-summary (compression) call or an analysis call, each carrying
the user-content string handed to the API. -/
inductive CallEvent where
  | summaryCall (content : String)
  | analysisCall (content : String)
deriving DecidableEq

namespace Summarizer

/-! ## `summarizer.py` — `MeetingSummarizer` -/

/-- A fully-validated analysis dict: the four required keys of
`summarizer.py` are always present after the validation loop. -/
structure Analysis where
  summary : String
  action_items : List String
  it_insights : List String
  key_decisions : List String
deriving DecidableEq

/-- A successfully `json.loads`-parsed response before key validation: any of
the four required keys may be missing (`none`). -/
structure ParsedAnalysis where
  summary : Option String
  action_items : Option (List String)
  it_insights : Option (List String)
  key_decisions : Option (List String)
deriving DecidableEq

/-- Outcome of one completion-capability call that is expected to return JSON:
a parsed object, a `json.JSONDecodeError` (with its message), or any other
exception (with its message). -/
inductive CompletionOutcome where
  | ok (p : ParsedAnalysis)
  | badJson (msg : String)
  | apiError (msg : String)

/-- The mutable state of `MeetingSummarizer` (summarizer.py `__init__`),
minus the API client and wall-clock start time. -/
structure SummState where
  full_transcript : List String
  word_count : Nat
  last_analysis_word_count : Nat
  rolling_summaries : List String
  last_summary_word_count : Nat
  latest_analysis : Option Analysis
deriving DecidableEq

/-- Fresh `MeetingSummarizer` state. -/
def initState : SummState :=
  { full_transcript := [], word_count := 0, last_analysis_word_count := 0,
    rolling_summaries := [], last_summary_word_count := 0, latest_analysis := none }

/-- `_get_error_response` (summarizer.py lines 390-397). -/
def get_error_response (error_msg : String) : Analysis :=
  { summary := "Error: " ++ error_msg, action_items := [], it_insights := [],
    key_decisions := [] }

/-- `_create_rolling_summary` (summarizer.py lines 263-314).  The summary
completion call is modelled by `so` (success returns the summary text, failure
models any raised exception, which the method catches, leaving the state
unchanged).  Also returns the user content of the call (last 5 segments). -/
def create_rolling_summary (so : String → Except String String) (s : SummState) :
    SummState × String :=
  let recent_text := joinSp (lastN 5 s.full_transcript)
  match so recent_text with
  | .error _ => (s, recent_text)
  | .ok summary =>
    let summaries := s.rolling_summaries ++ [summary]
    ({ s with rolling_summaries := trimLoop summaries (summaryWords summaries) },
      recent_text)

/-- The `for key in required_keys: if key not in analysis: ...` validation loop
(summarizer.py lines 199-202 and 378-381): a missing list key becomes `[]`,
a missing `summary` becomes `"No summary available"`. -/
def fill_required (p : ParsedAnalysis) : Analysis :=
  { summary := p.summary.getD "No summary available",
    action_items := p.action_items.getD [],
    it_insights := p.it_insights.getD [],
    key_decisions := p.key_decisions.getD [] }

/-- `_build_context` (summarizer.py lines 227-261).  The wall-clock duration in
minutes is supplied as `duration`. -/
def build_context (duration : Nat) (s : SummState) : String :=
  let meta := "MEETING METADATA:\n- Duration: " ++ toString duration ++
    " minutes\n- Total words: " ++ toString s.word_count ++ "\n"
  let sumParts :=
    if s.rolling_summaries.isEmpty then []
    else "\n--- PREVIOUS DISCUSSION (SUMMARIES) ---" ::
      (s.rolling_summaries.enum.map
        (fun p => "\nSummary " ++ toString (p.1 + 1) ++ ":\n" ++ p.2))
  let recent := lastN 3 s.full_transcript
  let recParts := if recent.isEmpty then []
    else ["\n--- RECENT TRANSCRIPT ---", joinSp recent]
  String.intercalate "\n" ([meta] ++ sumParts ++ recParts)

/-- Step 1 of `_analyze_current_state` (summarizer.py lines 152-158): run
`_create_rolling_summary` and advance `last_summary_word_count` when the
300-word delta is reached. -/
def compress_step (so : String → Except String String) (s : SummState) :
    SummState × List CallEvent :=
  if (s.word_count : Int) - (s.last_summary_word_count : Int) ≥
      (WORDS_PER_ROLLING_SUMMARY : Int) then
    let r := create_rolling_summary so s
    ({ r.1 with last_summary_word_count := r.1.word_count },
      [CallEvent.summaryCall r.2])
  else (s, ([] : List CallEvent))

/-- `_analyze_current_state` (summarizer.py lines 139-225): first the rolling
summary check (compression), then the analysis completion call.  `so` models
the summary call, `co` the analysis call.  Returns the analysis handed to the
caller, the new state, and the completion calls made, in order. -/
def analyze_current_state (so : String → Except String String)
    (co : String → CompletionOutcome) (duration : Nat) (s : SummState) :
    Analysis × SummState × List CallEvent :=
  let comp := compress_step so s
  let s1 := comp.1
  let context := build_context duration s1
  match co context with
  | .ok p =>
    let analysis := fill_required p
    (analysis, { s1 with latest_analysis := some analysis },
      comp.2 ++ [CallEvent.analysisCall context])
  | .badJson _ =>
    (get_error_response "Invalid JSON response from API", s1,
      comp.2 ++ [CallEvent.analysisCall context])
  | .apiError msg =>
    (get_error_response msg, s1, comp.2 ++ [CallEvent.analysisCall context])

/-- `add_transcript` (summarizer.py lines 108-137). -/
def add_transcript (so : String → Except String String)
    (co : String → CompletionOutcome) (duration : Nat) (s : SummState)
    (text : String) : Option Analysis × SummState × List CallEvent :=
  let s1 := { s with full_transcript := s.full_transcript ++ [text],
                     word_count := s.word_count + (pySplit text).length }
  if (s1.word_count : Int) - (s1.last_analysis_word_count : Int) ≥
      (WORDS_PER_ANALYSIS : Int) then
    let r := analyze_current_state so co duration s1
    (some r.1, { r.2.1 with last_analysis_word_count := r.2.1.word_count }, r.2.2)
  else (none, s1, [])

/-- Context built by `get_final_summary` (summarizer.py lines 329-353). -/
def final_context (duration : Nat) (s : SummState) : String :=
  let header := "MEETING COMPLETED\nDuration: " ++ toString duration ++
    " minutes\nTotal words: " ++ toString s.word_count ++ "\n"
  let phases :=
    if s.rolling_summaries.isEmpty then []
    else "\n--- MEETING PROGRESSION (SUMMARIES) ---" ::
      (s.rolling_summaries.enum.map
        (fun p => "\nPhase " ++ toString (p.1 + 1) ++ ":\n" ++ p.2))
  let full_text := joinSp s.full_transcript
  let words := pySplit full_text
  let tail :=
    if words.length > 1000 then
      ["\n--- RECENT TRANSCRIPT (LAST 1000 WORDS) ---", joinSp (lastN 1000 words)]
    else ["\n--- FULL TRANSCRIPT ---", full_text]
  String.intercalate "\n" ([header] ++ phases ++ tail)

/-- `get_final_summary` (summarizer.py lines 316-388): one completion call on
the comprehensive context; `except Exception` maps both a JSON decode failure
and any API failure to `_get_error_response(str(e))`. -/
def get_final_summary (co : String → CompletionOutcome) (duration : Nat)
    (s : SummState) : Analysis :=
  match co (final_context duration s) with
  | .ok p => fill_required p
  | .badJson msg => get_error_response msg
  | .apiError msg => get_error_response msg

/-- Driver folding `add_transcript` over a list of segments, counting how many
ingestions returned an analysis (i.e. triggered an analysis pass). -/
def run_segments (so : String → Except String String)
    (co : String → CompletionOutcome) (duration : Nat) :
    SummState → List String → SummState × Nat
  | s, [] => (s, 0)
  | s, t :: ts =>
    let r := add_transcript so co duration s t
    let rest := run_segments so co duration r.2.1 ts
    (rest.1, (if r.1.isSome then 1 else 0) + rest.2)

end Summarizer

namespace Summarizer2

/-! ## `summarizer_2.py` — IT-focused `MeetingSummarizer` -/

/-- A fully-validated IT analysis dict: the five required keys of
`summarizer_2.py` are always present after the validation loop. -/
structure Analysis where
  technical_analysis : String
  potential_issues : List String
  recommendations : List String
  clarifying_questions : List String
  action_items : List String
deriving DecidableEq

/-- A successfully parsed response before key validation. -/
structure ParsedAnalysis where
  technical_analysis : Option String
  potential_issues : Option (List String)
  recommendations : Option (List String)
  clarifying_questions : Option (List String)
  action_items : Option (List String)
deriving DecidableEq

/-- Outcome of one JSON-shaped completion call (as in `Summarizer`). -/
inductive CompletionOutcome where
  | ok (p : ParsedAnalysis)
  | badJson (msg : String)
  | apiError (msg : String)

/-- The mutable state of the IT-focused `MeetingSummarizer`
(summarizer_2.py `__init__`), minus the API client and start time. -/
structure SummState where
  full_transcript : List String
  word_count : Nat
  last_analysis_word_count : Nat
  rolling_summaries : List String
  last_summary_word_count : Nat
  previous_issues : List String
  previous_recommendations : List String
  latest_analysis : Option Analysis
deriving DecidableEq

/-- Fresh IT-focused `MeetingSummarizer` state. -/
def initState : SummState :=
  { full_transcript := [], word_count := 0, last_analysis_word_count := 0,
    rolling_summaries := [], last_summary_word_count := 0,
    previous_issues := [], previous_recommendations := [],
    latest_analysis := none }

/-- `_get_error_response` (summarizer_2.py lines 424-432). -/
def get_error_response (error_msg : String) : Analysis :=
  { technical_analysis := "Error: " ++ error_msg, potential_issues := [],
    recommendations := [], clarifying_questions := [], action_items := [] }

/-- The inner `is_duplicate` of `_deduplicate_analysis` (summarizer_2.py lines
256-263): case-insensitive two-way substring test against the last 10 entries
of the history. -/
def is_duplicate (new_item : String) (previous_items : List String) : Bool :=
  (lastN 10 previous_items).any (fun prev =>
    pyIn (pyLower new_item) (pyLower prev) || pyIn (pyLower prev) (pyLower new_item))

/-- `_deduplicate_analysis` (summarizer_2.py lines 253-279): filters the
`potential_issues` / `recommendations` keys when present, against the
respective histories. -/
def deduplicate_analysis (prevIssues prevRecs : List String)
    (p : ParsedAnalysis) : ParsedAnalysis :=
  { p with
    potential_issues :=
      p.potential_issues.map (fun l => l.filter (fun issue => !is_duplicate issue prevIssues)),
    recommendations :=
      p.recommendations.map (fun l => l.filter (fun rec => !is_duplicate rec prevRecs)) }

/-- The key-validation loop of `_analyze_current_state` / `get_final_summary`
(summarizer_2.py lines 213-226 and 403-415): a missing list key becomes `[]`,
a missing `technical_analysis` becomes `default_ta`. -/
def fill_required (default_ta : String) (p : ParsedAnalysis) : Analysis :=
  { technical_analysis := p.technical_analysis.getD default_ta,
    potential_issues := p.potential_issues.getD [],
    recommendations := p.recommendations.getD [],
    clarifying_questions := p.clarifying_questions.getD [],
    action_items := p.action_items.getD [] }

/-- `_create_rolling_summary` (summarizer_2.py lines 315-350); identical logic
to summarizer.py's. -/
def create_rolling_summary (so : String → Except String String) (s : SummState) :
    SummState × String :=
  let recent_text := joinSp (lastN 5 s.full_transcript)
  match so recent_text with
  | .error _ => (s, recent_text)
  | .ok summary =>
    let summaries := s.rolling_summaries ++ [summary]
    ({ s with rolling_summaries := trimLoop summaries (summaryWords summaries) },
      recent_text)

/-- `_build_context` (summarizer_2.py lines 281-313). -/
def build_context (duration : Nat) (s : SummState) : String :=
  let meta := "MEETING METADATA:\n- Duration: " ++ toString duration ++
    " minutes\n- Total words: " ++ toString s.word_count ++
    "\n- Type: IT Technical Discussion\n"
  let issueParts :=
    if s.previous_issues.isEmpty then []
    else ["\n--- PREVIOUSLY IDENTIFIED ISSUES (DON'T REPEAT) ---\n" ++
      String.intercalate "\n"
        ((lastN 5 s.previous_issues).map (fun issue => "- " ++ issue))]
  let sumParts :=
    if s.rolling_summaries.isEmpty then []
    else "\n--- PREVIOUS DISCUSSION (SUMMARIES) ---" ::
      (s.rolling_summaries.enum.map
        (fun p => "\nPhase " ++ toString (p.1 + 1) ++ ":\n" ++ p.2))
  let recent := lastN 3 s.full_transcript
  let recParts := if recent.isEmpty then []
    else ["\n--- CURRENT DISCUSSION ---", joinSp recent]
  String.intercalate "\n" ([meta] ++ issueParts ++ sumParts ++ recParts)

/-- Step 1 of `_analyze_current_state` (summarizer_2.py lines 176-182):
identical compression check to summarizer.py's. -/
def compress_step (so : String → Except String String) (s : SummState) :
    SummState × List CallEvent :=
  if (s.word_count : Int) - (s.last_summary_word_count : Int) ≥
      (WORDS_PER_ROLLING_SUMMARY : Int) then
    let r := create_rolling_summary so s
    ({ r.1 with last_summary_word_count := r.1.word_count },
      [CallEvent.summaryCall r.2])
  else (s, ([] : List CallEvent))

/-- `_analyze_current_state` (summarizer_2.py lines 174-251): compression
check, context build, analysis call, deduplication, key validation, history
extension with the surviving entries. -/
def analyze_current_state (so : String → Except String String)
    (co : String → CompletionOutcome) (duration : Nat) (s : SummState) :
    Analysis × SummState × List CallEvent :=
  let comp := compress_step so s
  let s1 := comp.1
  let context := build_context duration s1
  match co context with
  | .ok p =>
    let p1 := deduplicate_analysis s1.previous_issues s1.previous_recommendations p
    let analysis := fill_required "No technical discussion detected yet" p1
    (analysis,
      { s1 with latest_analysis := some analysis,
                previous_issues := s1.previous_issues ++ analysis.potential_issues,
                previous_recommendations :=
                  s1.previous_recommendations ++ analysis.recommendations },
      comp.2 ++ [CallEvent.analysisCall context])
  | .badJson _ =>
    (get_error_response "Invalid JSON from API", s1,
      comp.2 ++ [CallEvent.analysisCall context])
  | .apiError msg =>
    (get_error_response msg, s1, comp.2 ++ [CallEvent.analysisCall context])

/-- `add_transcript` (summarizer_2.py lines 158-172). -/
def add_transcript (so : String → Except String String)
    (co : String → CompletionOutcome) (duration : Nat) (s : SummState)
    (text : String) : Option Analysis × SummState × List CallEvent :=
  let s1 := { s with full_transcript := s.full_transcript ++ [text],
                     word_count := s.word_count + (pySplit text).length }
  if (s1.word_count : Int) - (s1.last_analysis_word_count : Int) ≥
      (WORDS_PER_ANALYSIS : Int) then
    let r := analyze_current_state so co duration s1
    (some r.1, { r.2.1 with last_analysis_word_count := r.2.1.word_count }, r.2.2)
  else (none, s1, [])

/-- Context built by `get_final_summary` (summarizer_2.py lines 356-379). -/
def final_context (duration : Nat) (s : SummState) : String :=
  let header := "MEETING COMPLETED - FINAL ANALYSIS\nDuration: " ++
    toString duration ++ " minutes\nTotal words: " ++ toString s.word_count ++ "\n"
  let phases :=
    if s.rolling_summaries.isEmpty then []
    else "\n--- MEETING PROGRESSION ---" ::
      (s.rolling_summaries.enum.map
        (fun p => "\nPhase " ++ toString (p.1 + 1) ++ ":\n" ++ p.2))
  let full_text := joinSp s.full_transcript
  let words := pySplit full_text
  let tail :=
    if words.length > 1000 then
      ["\n--- RECENT TRANSCRIPT (LAST 1000 WORDS) ---", joinSp (lastN 1000 words)]
    else ["\n--- FULL TRANSCRIPT ---", full_text]
  String.intercalate "\n" ([header] ++ phases ++ tail)

/-- `get_final_summary` (summarizer_2.py lines 352-422): no deduplication on
the final pass; `except Exception` maps every failure to
`_get_error_response(str(e))`. -/
def get_final_summary (co : String → CompletionOutcome) (duration : Nat)
    (s : SummState) : Analysis :=
  match co (final_context duration s) with
  | .ok p => fill_required "No technical analysis available" p
  | .badJson msg => get_error_response msg
  | .apiError msg => get_error_response msg

end Summarizer2

namespace AudioFW

/-! ## `audio_processor_faster_whisper.py` — `AudioProcessor`

The transcription capability is modelled by a fallible oracle
`List Int → Except String String`: `.ok text` is the concatenated segment
text Whisper returns for a window of int16 samples, `.error` an exception
raised by Whisper or by the transcript callback, which `_transcribe_buffer`
catches (lines 223-226), leaving the buffer and duration unchanged.
Durations are exact rationals, mirroring the float arithmetic
`len(samples) / RATE` of the source on the sample counts that actually
occur; the PyAudio stream/thread plumbing is pure I/O and is not modelled. -/

/-- `RATE = 16000` (line 31). -/
def RATE : Nat := 16000

/-- `CHUNK_DURATION_SECONDS = 3` (line 34). -/
def CHUNK_DURATION_SECONDS : ℚ := 3

/-- `OVERLAP_SECONDS = 1.5` (line 35). -/
def OVERLAP_SECONDS : ℚ := 3 / 2

/-- `overlap_samples = int(OVERLAP_SECONDS * RATE)` (line 214) = 24000. -/
def overlap_samples : Nat := 24000

/-- The mutable state of `AudioProcessor` relevant to buffering and stopping:
`is_recording`, `audio_buffer`, `buffer_duration`. -/
structure AudioState where
  is_recording : Bool
  audio_buffer : List Int
  buffer_duration : ℚ
deriving DecidableEq

/-- Fresh `AudioProcessor` state (`__init__`, lines 66-72). -/
def initState : AudioState :=
  { is_recording := false, audio_buffer := [], buffer_duration := 0 }

/-- One invocation of `_transcribe_buffer`: the window handed to Whisper, the
buffer duration at the moment of the call, and the text passed to the
transcript callback (`none` when Whisper returned empty/whitespace text, or
when the call raised and was caught). -/
structure TransEvent where
  window : List Int
  durationAtCall : ℚ
  emitted : Option String
deriving DecidableEq

/-- `_transcribe_buffer` (lines 182-226): transcribe the whole buffer, send
non-empty text to the callback, then re-seed the buffer: the trailing
`overlap_samples` when the buffer is strictly longer than that, otherwise an
empty buffer with duration 0.  The whole body sits in a try/except: when the
Whisper call (or the callback) raises, the exception is caught at lines
223-226 and the method returns with `audio_buffer`/`buffer_duration`
unchanged — no re-seed.  `oracle` models the fallible transcription:
`.ok text` is Whisper's concatenated segment text, `.error` a raised
exception. -/
def transcribe_buffer (oracle : List Int → Except String String)
    (s : AudioState) : AudioState × TransEvent :=
  match oracle s.audio_buffer with
  | .error _ =>
    (s, { window := s.audio_buffer, durationAtCall := s.buffer_duration,
          emitted := none })
  | .ok text =>
    let transcript_text := pyStrip text
    let ev : TransEvent :=
      { window := s.audio_buffer, durationAtCall := s.buffer_duration,
        emitted := if transcript_text = "" then none else some transcript_text }
    if s.audio_buffer.length > overlap_samples then
      ({ s with audio_buffer := lastN overlap_samples s.audio_buffer,
                buffer_duration := OVERLAP_SECONDS }, ev)
    else
      ({ s with audio_buffer := [], buffer_duration := 0 }, ev)

/-- One iteration of `_processing_loop` (lines 159-173) for a dequeued audio
chunk: extend the buffer, bump the duration, transcribe when the duration has
reached `CHUNK_DURATION_SECONDS`. -/
def process_chunk (oracle : List Int → Except String String) (s : AudioState)
    (chunk : List Int) : AudioState × List TransEvent :=
  let s1 := { s with audio_buffer := s.audio_buffer ++ chunk,
                     buffer_duration := s.buffer_duration + (chunk.length : ℚ) / (RATE : ℚ) }
  if s1.buffer_duration ≥ CHUNK_DURATION_SECONDS then
    let r := transcribe_buffer oracle s1
    (r.1, [r.2])
  else (s1, [])

/-- `_processing_loop` run over a finite sequence of dequeued chunks,
collecting all `_transcribe_buffer` invocations in order. -/
def processing_loop (oracle : List Int → Except String String) :
    AudioState → List (List Int) → AudioState × List TransEvent
  | s, [] => (s, [])
  | s, c :: cs =>
    let r := process_chunk oracle s c
    let rest := processing_loop oracle r.1 cs
    (rest.1, r.2 ++ rest.2)

/-- `start_recording` (lines 86-94): a no-op when already recording, otherwise
clears the buffer and starts. -/
def start_recording (s : AudioState) : AudioState :=
  if s.is_recording then s
  else { is_recording := true, audio_buffer := [], buffer_duration := 0 }

/-- `stop_recording` (lines 228-250): unconditionally set `is_recording` to
`False`, close the stream and join the thread (pure I/O, not modelled), then
flush: one final `_transcribe_buffer` call iff the residual buffer duration
exceeds one second. -/
def stop_recording (oracle : List Int → Except String String)
    (s : AudioState) : AudioState × List TransEvent :=
  let s1 := { s with is_recording := false }
  if s1.buffer_duration > 1 then
    let r := transcribe_buffer oracle s1
    (r.1, [r.2])
  else (s1, [])

/-- A transcription oracle for concrete runs: Whisper hears silence. -/
def silentOracle : List Int → Except String String := fun _ => .ok ""

/-- A transcription oracle for concrete runs: Whisper raises. -/
def crashOracle : List Int → Except String String :=
  fun _ => .error "whisper error"

end AudioFW

/-! ## Helper lemmas -/

namespace Summarizer

/-- `_create_rolling_summary` touches only `rolling_summaries`; its returned
user content is the join of the last five segments. -/
theorem crs_preserves (so : String → Except String String) (s : SummState) :
    (create_rolling_summary so s).1.full_transcript = s.full_transcript
    ∧ (create_rolling_summary so s).1.word_count = s.word_count
    ∧ (create_rolling_summary so s).1.last_analysis_word_count = s.last_analysis_word_count
    ∧ (create_rolling_summary so s).1.last_summary_word_count = s.last_summary_word_count
    ∧ (create_rolling_summary so s).1.latest_analysis = s.latest_analysis
    ∧ (create_rolling_summary so s).2 = joinSp (lastN 5 s.full_transcript) := by
  cases h : so (joinSp (lastN 5 s.full_transcript)) <;>
    simp [create_rolling_summary, h]

/-- Effect of the compression step on every state component and on the call
trace, as a function of the 300-word trigger condition. -/
theorem compress_step_spec (so : String → Except String String) (s : SummState) :
    (compress_step so s).1.rolling_summaries =
      (if (s.word_count : Int) - (s.last_summary_word_count : Int)
          ≥ (WORDS_PER_ROLLING_SUMMARY : Int)
        then (create_rolling_summary so s).1.rolling_summaries
        else s.rolling_summaries)
    ∧ (compress_step so s).1.last_summary_word_count =
      (if (s.word_count : Int) - (s.last_summary_word_count : Int)
          ≥ (WORDS_PER_ROLLING_SUMMARY : Int)
        then s.word_count else s.last_summary_word_count)
    ∧ (compress_step so s).2 =
      (if (s.word_count : Int) - (s.last_summary_word_count : Int)
          ≥ (WORDS_PER_ROLLING_SUMMARY : Int)
        then [CallEvent.summaryCall (joinSp (lastN 5 s.full_transcript))] else [])
    ∧ (compress_step so s).1.full_transcript = s.full_transcript
    ∧ (compress_step so s).1.word_count = s.word_count
    ∧ (compress_step so s).1.last_analysis_word_count = s.last_analysis_word_count
    ∧ (compress_step so s).1.latest_analysis = s.latest_analysis := by
  obtain ⟨h1, h2, h3, h4, h5, h6⟩ := crs_preserves so s
  by_cases hc : (WORDS_PER_ROLLING_SUMMARY : Int) ≤
      (s.word_count : Int) - (s.last_summary_word_count : Int) <;>
    simp [compress_step, hc, h1, h2, h3, h5, h6]

/-- `_analyze_current_state` never changes the ledger, the total word count,
or the last-analysis counter. -/
theorem analyze_preserves (so : String → Except String String)
    (co : String → CompletionOutcome) (d : Nat) (s : SummState) :
    (analyze_current_state so co d s).2.1.full_transcript = s.full_transcript
    ∧ (analyze_current_state so co d s).2.1.word_count = s.word_count
    ∧ (analyze_current_state so co d s).2.1.last_analysis_word_count
        = s.last_analysis_word_count := by
  obtain ⟨_, _, _, g4, g5, g6, _⟩ := compress_step_spec so s
  cases hco : co (build_context d (compress_step so s).1) <;>
    simp [analyze_current_state, hco, g4, g5, g6]

/-- Oracles for concrete scenario runs. -/
def okParsed : ParsedAnalysis :=
  { summary := some "ok", action_items := some [], it_insights := some [],
    key_decisions := some [] }

/-- Analysis-call oracle that always returns a well-formed object. -/
def co_ok : String → CompletionOutcome := fun _ => .ok okParsed

/-- Summary-call oracle that always succeeds. -/
def so_ok : String → Except String String := fun _ => .ok "summary"

/-- A four-word transcript segment (scenario A: ten of these total 40 < 50). -/
def segA : String := "alpha beta gamma delta"

/-- A seven-word transcript segment (scenario B, segments 1-6). -/
def segB : String := "apple banana cherry date elder fig grape"

/-- An eight-word transcript segment (scenario B, segment 7). -/
def segB7 : String := "one two three four five six seven eight"

end Summarizer

/-! ## Claims -/

/-- C1: `add_transcript` triggers an incremental analysis pass exactly when the
total word count after ingesting the segment minus the word count at the last
analysis is at least `WORDS_PER_ANALYSIS = 50`, returning `None` otherwise;
the segment is always appended to the ledger and the word counter always
advances.  Scenario A: 10 four-word segments (total 40 < 50) trigger zero
passes and leave 10 segments in the ledger.  Scenario B: six seven-word
segments followed by an eight-word segment reach exactly 50 words at segment
7, the pass triggers there, and `last_analysis_word_count` becomes 50. -/
theorem C1_analysis_trigger :
    (∀ (so : String → Except String String)
       (co : String → Summarizer.CompletionOutcome) (d : Nat)
       (s : Summarizer.SummState) (t : String),
      ((Summarizer.add_transcript so co d s t).1.isSome ↔
        (((s.word_count + (pySplit t).length : Nat) : Int)
          - (s.last_analysis_word_count : Int) ≥ (WORDS_PER_ANALYSIS : Int)))
      ∧ (Summarizer.add_transcript so co d s t).2.1.full_transcript
          = s.full_transcript ++ [t]
      ∧ (Summarizer.add_transcript so co d s t).2.1.word_count
          = s.word_count + (pySplit t).length)
    ∧ ((Summarizer.run_segments Summarizer.so_ok Summarizer.co_ok 0
          Summarizer.initState (List.replicate 10 Summarizer.segA)).2 = 0
        ∧ (Summarizer.run_segments Summarizer.so_ok Summarizer.co_ok 0
            Summarizer.initState (List.replicate 10 Summarizer.segA)).1.full_transcript.length = 10)
    ∧ ((Summarizer.run_segments Summarizer.so_ok Summarizer.co_ok 0
          Summarizer.initState (List.replicate 6 Summarizer.segB)).2 = 0
        ∧ (Summarizer.add_transcript Summarizer.so_ok Summarizer.co_ok 0
            (Summarizer.run_segments Summarizer.so_ok Summarizer.co_ok 0
              Summarizer.initState (List.replicate 6 Summarizer.segB)).1
            Summarizer.segB7).1.isSome = true
        ∧ (Summarizer.add_transcript Summarizer.so_ok Summarizer.co_ok 0
            (Summarizer.run_segments Summarizer.so_ok Summarizer.co_ok 0
              Summarizer.initState (List.replicate 6 Summarizer.segB)).1
            Summarizer.segB7).2.1.last_analysis_word_count = 50) := by
  refine ⟨?_, by decide, by decide⟩
  intro so co d s t
  obtain ⟨hf, hw, hl⟩ := Summarizer.analyze_preserves so co d
    { s with full_transcript := s.full_transcript ++ [t],
             word_count := s.word_count + (pySplit t).length }
  by_cases hc : (WORDS_PER_ANALYSIS : Int) ≤ (s.word_count : Int)
      + ((pySplit t).length : Int) - (s.last_analysis_word_count : Int) <;>
    simp [Summarizer.add_transcript, hc, hf, hw]

/-- The trim loop restores the word ceiling and only ever removes whole
summaries from the front: the result is a suffix (`drop k`) of its input. -/
theorem trimLoop_sound (l : List String) :
    ∀ total : Int, total = (summaryWords l : Int) →
      summaryWords (trimLoop l total) ≤ MAX_PRIOR_SUMMARY_WORDS
      ∧ ∃ k, trimLoop l total = l.drop k := by
  induction l with
  | nil =>
    intro total _
    exact ⟨by simp [trimLoop, summaryWords, MAX_PRIOR_SUMMARY_WORDS], 0, rfl⟩
  | cons h t ih =>
    intro total htot
    by_cases hgt : total > (MAX_PRIOR_SUMMARY_WORDS : Int)
    · have htot' : total - ((pySplit h).length : Int) = (summaryWords t : Int) := by
        rw [htot]; simp [summaryWords]
      obtain ⟨hb, k, hk⟩ := ih _ htot'
      refine ⟨by simpa [trimLoop, hgt] using hb, k + 1, ?_⟩
      simpa [trimLoop, hgt] using hk
    · refine ⟨?_, 0, by simp [trimLoop, hgt]⟩
      have : total ≤ (MAX_PRIOR_SUMMARY_WORDS : Int) := not_lt.mp hgt
      rw [htot] at this
      simpa [trimLoop, hgt] using (by exact_mod_cast this : summaryWords (h :: t) ≤ MAX_PRIOR_SUMMARY_WORDS)

/-- C2: after a successful compression pass (in either summarizer module) the
retained rolling summaries satisfy
`sum of whitespace-split word counts ≤ MAX_PRIOR_SUMMARY_WORDS = 1000`, and the
retained sequence is a suffix of the old sequence with the new summary
appended — i.e. eviction removes whole summaries from the front, strict FIFO,
never truncating a single summary; when the summary call fails the sequence is
unchanged. -/
theorem C2_compression_ceiling_fifo :
    (∀ (s : Summarizer.SummState) (summary : String),
      summaryWords ((Summarizer.create_rolling_summary
          (fun _ => .ok summary) s).1.rolling_summaries) ≤ MAX_PRIOR_SUMMARY_WORDS
      ∧ ∃ k, (Summarizer.create_rolling_summary
          (fun _ => .ok summary) s).1.rolling_summaries
            = (s.rolling_summaries ++ [summary]).drop k)
    ∧ (∀ (s : Summarizer.SummState) (msg : String),
      (Summarizer.create_rolling_summary
          (fun _ => .error msg) s).1.rolling_summaries = s.rolling_summaries)
    ∧ (∀ (s : Summarizer2.SummState) (summary : String),
      summaryWords ((Summarizer2.create_rolling_summary
          (fun _ => .ok summary) s).1.rolling_summaries) ≤ MAX_PRIOR_SUMMARY_WORDS
      ∧ ∃ k, (Summarizer2.create_rolling_summary
          (fun _ => .ok summary) s).1.rolling_summaries
            = (s.rolling_summaries ++ [summary]).drop k)
    ∧ (∀ (s : Summarizer2.SummState) (msg : String),
      (Summarizer2.create_rolling_summary
          (fun _ => .error msg) s).1.rolling_summaries = s.rolling_summaries) := by
  refine ⟨fun s summary => ?_, fun s msg => by simp [Summarizer.create_rolling_summary],
    fun s summary => ?_, fun s msg => by simp [Summarizer2.create_rolling_summary]⟩ <;>
    simpa [Summarizer.create_rolling_summary, Summarizer2.create_rolling_summary]
      using trimLoop_sound (s.rolling_summaries ++ [summary]) _ rfl


/-- `_build_context` does not read `latest_analysis`. -/
theorem build_context_latest (d : Nat) (s : Summarizer.SummState)
    (x : Option Summarizer.Analysis) :
    Summarizer.build_context d { s with latest_analysis := x }
      = Summarizer.build_context d s := rfl

/-- Shape of one `_analyze_current_state` call (summarizer.py): the
compression call happens iff the 300-word delta is reached, the analysis call
is always last and its context is built from the already-compressed state, and
the summary bookkeeping is exactly the compression branch's. -/
theorem analyze_shape (so : String → Except String String)
    (co : String → Summarizer.CompletionOutcome) (d : Nat)
    (s : Summarizer.SummState) :
    ((∃ c, CallEvent.summaryCall c ∈ (Summarizer.analyze_current_state so co d s).2.2) ↔
      (s.word_count : Int) - (s.last_summary_word_count : Int)
        ≥ (WORDS_PER_ROLLING_SUMMARY : Int))
    ∧ (Summarizer.analyze_current_state so co d s).2.2.getLast? =
        some (CallEvent.analysisCall
          (Summarizer.build_context d (Summarizer.analyze_current_state so co d s).2.1))
    ∧ (Summarizer.analyze_current_state so co d s).2.2.dropLast =
        (if (s.word_count : Int) - (s.last_summary_word_count : Int)
            ≥ (WORDS_PER_ROLLING_SUMMARY : Int)
          then [CallEvent.summaryCall (joinSp (lastN 5 s.full_transcript))] else [])
    ∧ (Summarizer.analyze_current_state so co d s).2.1.last_summary_word_count =
        (if (s.word_count : Int) - (s.last_summary_word_count : Int)
            ≥ (WORDS_PER_ROLLING_SUMMARY : Int)
          then s.word_count else s.last_summary_word_count)
    ∧ (Summarizer.analyze_current_state so co d s).2.1.rolling_summaries =
        (if (s.word_count : Int) - (s.last_summary_word_count : Int)
            ≥ (WORDS_PER_ROLLING_SUMMARY : Int)
          then (Summarizer.create_rolling_summary so s).1.rolling_summaries
          else s.rolling_summaries) := by
  obtain ⟨g1, g2, g3, g4, g5, g6, g7⟩ := Summarizer.compress_step_spec so s
  refine ⟨?_, ?_, ?_, ?_, ?_⟩
  · by_cases hc : (WORDS_PER_ROLLING_SUMMARY : Int) ≤
        (s.word_count : Int) - (s.last_summary_word_count : Int) <;>
      cases hco : co (Summarizer.build_context d (Summarizer.compress_step so s).1) <;>
        simp [Summarizer.analyze_current_state, hco, g3, hc]
  · cases hco : co (Summarizer.build_context d (Summarizer.compress_step so s).1) <;>
      simp [Summarizer.analyze_current_state, hco, List.getLast?_concat,
        build_context_latest]
  · cases hco : co (Summarizer.build_context d (Summarizer.compress_step so s).1) <;>
      simp [Summarizer.analyze_current_state, hco, List.dropLast_concat, g3]
  · cases hco : co (Summarizer.build_context d (Summarizer.compress_step so s).1) <;>
      simp [Summarizer.analyze_current_state, hco, g2]
  · cases hco : co (Summarizer.build_context d (Summarizer.compress_step so s).1) <;>
      simp [Summarizer.analyze_current_state, hco, g1]

/-- C7: in `summarizer.py`, a compression pass is attempted during
`_analyze_current_state` exactly when
`word_count − last_summary_word_count ≥ WORDS_PER_ROLLING_SUMMARY = 300`; the
completion calls of one analysis pass are the optional compression call
followed by the analysis call, which always comes last and whose context is
built from the post-compression state (never stale summaries). -/
theorem C7_compression_before_analysis (so : String → Except String String)
    (co : String → Summarizer.CompletionOutcome) (d : Nat)
    (s : Summarizer.SummState) :
    ((∃ c, CallEvent.summaryCall c ∈ (Summarizer.analyze_current_state so co d s).2.2) ↔
      (s.word_count : Int) - (s.last_summary_word_count : Int)
        ≥ (WORDS_PER_ROLLING_SUMMARY : Int))
    ∧ (Summarizer.analyze_current_state so co d s).2.2.getLast? =
        some (CallEvent.analysisCall
          (Summarizer.build_context d (Summarizer.analyze_current_state so co d s).2.1))
    ∧ (Summarizer.analyze_current_state so co d s).2.2.dropLast =
        (if (s.word_count : Int) - (s.last_summary_word_count : Int)
            ≥ (WORDS_PER_ROLLING_SUMMARY : Int)
          then [CallEvent.summaryCall (joinSp (lastN 5 s.full_transcript))] else [])
    ∧ (Summarizer.analyze_current_state so co d s).2.1.rolling_summaries =
        (if (s.word_count : Int) - (s.last_summary_word_count : Int)
            ≥ (WORDS_PER_ROLLING_SUMMARY : Int)
          then (Summarizer.create_rolling_summary so s).1.rolling_summaries
          else s.rolling_summaries) :=
  ⟨(analyze_shape so co d s).1, (analyze_shape so co d s).2.1,
    (analyze_shape so co d s).2.2.1, (analyze_shape so co d s).2.2.2.2⟩

/-- A failing summary call leaves `rolling_summaries` untouched. -/
theorem crs_error (msg : String) (s : Summarizer.SummState) :
    (Summarizer.create_rolling_summary (fun _ => .error msg) s).1 = s := by
  simp [Summarizer.create_rolling_summary]

/-- C10: when the completion call inside a compression pass raises,
`rolling_summaries` is unchanged (nothing appended, nothing evicted), yet
`_analyze_current_state` still advances `last_summary_word_count` to the
current total; consequently a later analysis pass from a state whose total has
grown by fewer than `WORDS_PER_ROLLING_SUMMARY = 300` words attempts no
compression call. -/
theorem C10_failed_compression_advances_counter
    (co : String → Summarizer.CompletionOutcome) (d : Nat)
    (s : Summarizer.SummState) (msg : String)
    (so2 : String → Except String String)
    (co2 : String → Summarizer.CompletionOutcome) (d2 : Nat)
    (s2 : Summarizer.SummState) (c : String)
    (h : (s.word_count : Int) - (s.last_summary_word_count : Int)
      ≥ (WORDS_PER_ROLLING_SUMMARY : Int)) :
    (Summarizer.analyze_current_state (fun _ => .error msg) co d s).2.1.rolling_summaries
        = s.rolling_summaries
    ∧ (Summarizer.analyze_current_state (fun _ => .error msg) co d s).2.1.last_summary_word_count
        = s.word_count
    ∧ (s2.last_summary_word_count = s.word_count →
        (s2.word_count : Int) - (s.word_count : Int) < (WORDS_PER_ROLLING_SUMMARY : Int) →
        CallEvent.summaryCall c ∉ (Summarizer.analyze_current_state so2 co2 d2 s2).2.2) := by
  obtain ⟨sh1, sh2, sh3, sh4, sh5⟩ :=
    analyze_shape (fun _ => Except.error msg) co d s
  refine ⟨?_, ?_, ?_⟩
  · rw [sh5, if_pos h, crs_error]
  · rw [sh4, if_pos h]
  · intro h1 h2 hmem
    have hcond := (analyze_shape so2 co2 d2 s2).1.mp ⟨c, hmem⟩
    rw [h1] at hcond
    exact absurd hcond (not_le.mpr h2)

/-- Concrete states for the C10 witness. -/
def stateC10a : Summarizer.SummState :=
  { full_transcript := ["x"], word_count := 300, last_analysis_word_count := 0,
    rolling_summaries := ["old"], last_summary_word_count := 0,
    latest_analysis := none }

/-- Follow-up state for the C10 witness: 20 new words since the failure. -/
def stateC10b : Summarizer.SummState :=
  { full_transcript := ["x", "y"], word_count := 320,
    last_analysis_word_count := 300, rolling_summaries := ["old"],
    last_summary_word_count := 300, latest_analysis := none }

/-- Witness for C10 at concrete inputs. -/
theorem C10_failed_compression_advances_counter_witness :
    (Summarizer.analyze_current_state (fun _ => .error "boom")
        Summarizer.co_ok 0 stateC10a).2.1.rolling_summaries = ["old"]
    ∧ (Summarizer.analyze_current_state (fun _ => .error "boom")
        Summarizer.co_ok 0 stateC10a).2.1.last_summary_word_count = 300
    ∧ CallEvent.summaryCall "z" ∉
        (Summarizer.analyze_current_state Summarizer.so_ok Summarizer.co_ok 0
          stateC10b).2.2 := by
  have H := C10_failed_compression_advances_counter Summarizer.co_ok 0 stateC10a
    "boom" Summarizer.so_ok Summarizer.co_ok 0 stateC10b "z" (by decide)
  exact ⟨H.1, H.2.1, H.2.2 (by decide) (by decide)⟩


/-! ### `latest_analysis` never influences behaviour (congruence lemmas) -/

/-- Contexts agree when the fields `_build_context` reads agree. -/
theorem build_context_congr (d : Nat) (s1 s2 : Summarizer.SummState)
    (h1 : s1.full_transcript = s2.full_transcript)
    (h2 : s1.word_count = s2.word_count)
    (h3 : s1.rolling_summaries = s2.rolling_summaries) :
    Summarizer.build_context d s1 = Summarizer.build_context d s2 := by
  simp [Summarizer.build_context, h1, h2, h3]

/-- `_create_rolling_summary` ignores and preserves `latest_analysis`. -/
theorem crs_latest (so : String → Except String String)
    (ft : List String) (wc la : Nat) (rs : List String) (ls : Nat)
    (x y : Option Summarizer.Analysis) :
    (Summarizer.create_rolling_summary so ⟨ft, wc, la, rs, ls, x⟩).1.full_transcript
        = (Summarizer.create_rolling_summary so ⟨ft, wc, la, rs, ls, y⟩).1.full_transcript
    ∧ (Summarizer.create_rolling_summary so ⟨ft, wc, la, rs, ls, x⟩).1.word_count
        = (Summarizer.create_rolling_summary so ⟨ft, wc, la, rs, ls, y⟩).1.word_count
    ∧ (Summarizer.create_rolling_summary so ⟨ft, wc, la, rs, ls, x⟩).1.last_analysis_word_count
        = (Summarizer.create_rolling_summary so ⟨ft, wc, la, rs, ls, y⟩).1.last_analysis_word_count
    ∧ (Summarizer.create_rolling_summary so ⟨ft, wc, la, rs, ls, x⟩).1.rolling_summaries
        = (Summarizer.create_rolling_summary so ⟨ft, wc, la, rs, ls, y⟩).1.rolling_summaries
    ∧ (Summarizer.create_rolling_summary so ⟨ft, wc, la, rs, ls, x⟩).1.last_summary_word_count
        = (Summarizer.create_rolling_summary so ⟨ft, wc, la, rs, ls, y⟩).1.last_summary_word_count
    ∧ (Summarizer.create_rolling_summary so ⟨ft, wc, la, rs, ls, x⟩).1.latest_analysis = x
    ∧ (Summarizer.create_rolling_summary so ⟨ft, wc, la, rs, ls, x⟩).2
        = (Summarizer.create_rolling_summary so ⟨ft, wc, la, rs, ls, y⟩).2 := by
  cases h : so (joinSp (lastN 5 ft)) <;>
    simp [Summarizer.create_rolling_summary, h]

/-- The compression step ignores and preserves `latest_analysis`. -/
theorem compress_latest (so : String → Except String String)
    (ft : List String) (wc la : Nat) (rs : List String) (ls : Nat)
    (x y : Option Summarizer.Analysis) :
    (Summarizer.compress_step so ⟨ft, wc, la, rs, ls, x⟩).1.full_transcript
        = (Summarizer.compress_step so ⟨ft, wc, la, rs, ls, y⟩).1.full_transcript
    ∧ (Summarizer.compress_step so ⟨ft, wc, la, rs, ls, x⟩).1.word_count
        = (Summarizer.compress_step so ⟨ft, wc, la, rs, ls, y⟩).1.word_count
    ∧ (Summarizer.compress_step so ⟨ft, wc, la, rs, ls, x⟩).1.last_analysis_word_count
        = (Summarizer.compress_step so ⟨ft, wc, la, rs, ls, y⟩).1.last_analysis_word_count
    ∧ (Summarizer.compress_step so ⟨ft, wc, la, rs, ls, x⟩).1.rolling_summaries
        = (Summarizer.compress_step so ⟨ft, wc, la, rs, ls, y⟩).1.rolling_summaries
    ∧ (Summarizer.compress_step so ⟨ft, wc, la, rs, ls, x⟩).1.last_summary_word_count
        = (Summarizer.compress_step so ⟨ft, wc, la, rs, ls, y⟩).1.last_summary_word_count
    ∧ (Summarizer.compress_step so ⟨ft, wc, la, rs, ls, x⟩).1.latest_analysis = x
    ∧ (Summarizer.compress_step so ⟨ft, wc, la, rs, ls, x⟩).2
        = (Summarizer.compress_step so ⟨ft, wc, la, rs, ls, y⟩).2 := by
  obtain ⟨c1, c2, c3, c4, c5, c6, c7⟩ := crs_latest so ft wc la rs ls x y
  by_cases hc : (WORDS_PER_ROLLING_SUMMARY : Int) ≤ (wc : Int) - (ls : Int) <;>
    simp [Summarizer.compress_step, hc, c1, c2, c3, c4, c5, c6, c7]

/-- `_analyze_current_state` produces the same analysis, the same calls and
the same state (apart from `latest_analysis`) regardless of the incoming
`latest_analysis`. -/
theorem analyze_latest (so : String → Except String String)
    (co : String → Summarizer.CompletionOutcome) (d : Nat)
    (ft : List String) (wc la : Nat) (rs : List String) (ls : Nat)
    (x y : Option Summarizer.Analysis) :
    (Summarizer.analyze_current_state so co d ⟨ft, wc, la, rs, ls, x⟩).1
        = (Summarizer.analyze_current_state so co d ⟨ft, wc, la, rs, ls, y⟩).1
    ∧ (Summarizer.analyze_current_state so co d ⟨ft, wc, la, rs, ls, x⟩).2.1.full_transcript
        = (Summarizer.analyze_current_state so co d ⟨ft, wc, la, rs, ls, y⟩).2.1.full_transcript
    ∧ (Summarizer.analyze_current_state so co d ⟨ft, wc, la, rs, ls, x⟩).2.1.word_count
        = (Summarizer.analyze_current_state so co d ⟨ft, wc, la, rs, ls, y⟩).2.1.word_count
    ∧ (Summarizer.analyze_current_state so co d ⟨ft, wc, la, rs, ls, x⟩).2.1.last_analysis_word_count
        = (Summarizer.analyze_current_state so co d ⟨ft, wc, la, rs, ls, y⟩).2.1.last_analysis_word_count
    ∧ (Summarizer.analyze_current_state so co d ⟨ft, wc, la, rs, ls, x⟩).2.1.rolling_summaries
        = (Summarizer.analyze_current_state so co d ⟨ft, wc, la, rs, ls, y⟩).2.1.rolling_summaries
    ∧ (Summarizer.analyze_current_state so co d ⟨ft, wc, la, rs, ls, x⟩).2.1.last_summary_word_count
        = (Summarizer.analyze_current_state so co d ⟨ft, wc, la, rs, ls, y⟩).2.1.last_summary_word_count
    ∧ (Summarizer.analyze_current_state so co d ⟨ft, wc, la, rs, ls, x⟩).2.2
        = (Summarizer.analyze_current_state so co d ⟨ft, wc, la, rs, ls, y⟩).2.2 := by
  obtain ⟨c1, c2, c3, c4, c5, c6, c7⟩ := compress_latest so ft wc la rs ls x y
  have hctx : Summarizer.build_context d
      (Summarizer.compress_step so ⟨ft, wc, la, rs, ls, x⟩).1 =
      Summarizer.build_context d
        (Summarizer.compress_step so ⟨ft, wc, la, rs, ls, y⟩).1 :=
    build_context_congr d _ _ c1 c2 c4
  cases hco : co (Summarizer.build_context d
      (Summarizer.compress_step so ⟨ft, wc, la, rs, ls, y⟩).1) <;>
    simp [Summarizer.analyze_current_state, hctx, hco, c1, c2, c3, c4, c5, c6, c7]

/-- `add_transcript` behaves the same on two states differing only in
`latest_analysis`: same returned option, same calls, same ledger and counters. -/
theorem add_transcript_latest (so : String → Except String String)
    (co : String → Summarizer.CompletionOutcome) (d : Nat) (t : String)
    (s : Summarizer.SummState) (x : Option Summarizer.Analysis) :
    (Summarizer.add_transcript so co d { s with latest_analysis := x } t).1 =
      (Summarizer.add_transcript so co d s t).1
    ∧ (Summarizer.add_transcript so co d { s with latest_analysis := x } t).2.1.full_transcript =
      (Summarizer.add_transcript so co d s t).2.1.full_transcript
    ∧ (Summarizer.add_transcript so co d { s with latest_analysis := x } t).2.1.word_count =
      (Summarizer.add_transcript so co d s t).2.1.word_count
    ∧ (Summarizer.add_transcript so co d { s with latest_analysis := x } t).2.1.last_analysis_word_count =
      (Summarizer.add_transcript so co d s t).2.1.last_analysis_word_count
    ∧ (Summarizer.add_transcript so co d { s with latest_analysis := x } t).2.1.rolling_summaries =
      (Summarizer.add_transcript so co d s t).2.1.rolling_summaries
    ∧ (Summarizer.add_transcript so co d { s with latest_analysis := x } t).2.1.last_summary_word_count =
      (Summarizer.add_transcript so co d s t).2.1.last_summary_word_count
    ∧ (Summarizer.add_transcript so co d { s with latest_analysis := x } t).2.2 =
      (Summarizer.add_transcript so co d s t).2.2 := by
  obtain ⟨ft, wc, la, rs, ls, l⟩ := s
  obtain ⟨a1, a2, a3, a4, a5, a6, a7⟩ := analyze_latest so co d (ft ++ [t])
    (wc + (pySplit t).length) la rs ls x l
  by_cases hc : (WORDS_PER_ANALYSIS : Int) ≤
      ((wc : Int) + ((pySplit t).length : Int)) - (la : Int) <;>
    simp [Summarizer.add_transcript, hc, a1, a2, a3, a4, a5, a6, a7]

/-- `add_transcript` depends only on the ledger and the counters: two states
agreeing on everything except `latest_analysis` produce the same observable
results. -/
theorem add_transcript_core_congr (so : String → Except String String)
    (co : String → Summarizer.CompletionOutcome) (d : Nat) (t : String)
    (sa sb : Summarizer.SummState)
    (h1 : sa.full_transcript = sb.full_transcript)
    (h2 : sa.word_count = sb.word_count)
    (h3 : sa.last_analysis_word_count = sb.last_analysis_word_count)
    (h4 : sa.rolling_summaries = sb.rolling_summaries)
    (h5 : sa.last_summary_word_count = sb.last_summary_word_count) :
    (Summarizer.add_transcript so co d sa t).1 =
      (Summarizer.add_transcript so co d sb t).1
    ∧ (Summarizer.add_transcript so co d sa t).2.1.full_transcript =
      (Summarizer.add_transcript so co d sb t).2.1.full_transcript
    ∧ (Summarizer.add_transcript so co d sa t).2.1.word_count =
      (Summarizer.add_transcript so co d sb t).2.1.word_count
    ∧ (Summarizer.add_transcript so co d sa t).2.1.last_analysis_word_count =
      (Summarizer.add_transcript so co d sb t).2.1.last_analysis_word_count := by
  obtain ⟨f, w, l, r, ls, x⟩ := sa
  obtain ⟨f2, w2, l2, r2, ls2, x2⟩ := sb
  simp only at h1 h2 h3 h4 h5
  subst h1; subst h2; subst h3; subst h4; subst h5
  obtain ⟨k1, k2, k3, k4, _, _, _⟩ := add_transcript_latest so co d t ⟨f, w, l, r, ls, x2⟩ x
  exact ⟨k1, k2, k3, k4⟩

/-- C3: if the completion capability returns malformed (non-JSON) text during
an analysis pass, `add_transcript` returns the fixed error-shaped result
(`summary = "Error: Invalid JSON response from API"`, all lists empty) instead
of raising; the transcript ledger and the word counters end up exactly as they
would on a successful pass (the segment is appended and both counters advance
normally), and a subsequent `add_transcript` call behaves the same as it would
after a successful pass. -/
theorem C3_malformed_json_isolated (so : String → Except String String)
    (d : Nat) (s : Summarizer.SummState) (t msg : String)
    (p : Summarizer.ParsedAnalysis) (so2 : String → Except String String)
    (co2 : String → Summarizer.CompletionOutcome) (d2 : Nat) (t2 : String)
    (h : (WORDS_PER_ANALYSIS : Int) ≤
      ((s.word_count + (pySplit t).length : Nat) : Int)
        - (s.last_analysis_word_count : Int)) :
    (Summarizer.add_transcript so (fun _ => .badJson msg) d s t).1 =
      some (Summarizer.get_error_response "Invalid JSON response from API")
    ∧ (Summarizer.add_transcript so (fun _ => .badJson msg) d s t).2.1.full_transcript =
      s.full_transcript ++ [t]
    ∧ (Summarizer.add_transcript so (fun _ => .badJson msg) d s t).2.1.word_count =
      s.word_count + (pySplit t).length
    ∧ (Summarizer.add_transcript so (fun _ => .badJson msg) d s t).2.1.full_transcript =
      (Summarizer.add_transcript so (fun _ => .ok p) d s t).2.1.full_transcript
    ∧ (Summarizer.add_transcript so (fun _ => .badJson msg) d s t).2.1.word_count =
      (Summarizer.add_transcript so (fun _ => .ok p) d s t).2.1.word_count
    ∧ (Summarizer.add_transcript so (fun _ => .badJson msg) d s t).2.1.last_analysis_word_count =
      (Summarizer.add_transcript so (fun _ => .ok p) d s t).2.1.last_analysis_word_count
    ∧ (Summarizer.add_transcript so (fun _ => .badJson msg) d s t).2.1.rolling_summaries =
      (Summarizer.add_transcript so (fun _ => .ok p) d s t).2.1.rolling_summaries
    ∧ (Summarizer.add_transcript so (fun _ => .badJson msg) d s t).2.1.last_summary_word_count =
      (Summarizer.add_transcript so (fun _ => .ok p) d s t).2.1.last_summary_word_count
    ∧ (Summarizer.add_transcript so2 co2 d2
        (Summarizer.add_transcript so (fun _ => .badJson msg) d s t).2.1 t2).1 =
      (Summarizer.add_transcript so2 co2 d2
        (Summarizer.add_transcript so (fun _ => .ok p) d s t).2.1 t2).1
    ∧ (Summarizer.add_transcript so2 co2 d2
        (Summarizer.add_transcript so (fun _ => .badJson msg) d s t).2.1 t2).2.1.full_transcript =
      (Summarizer.add_transcript so2 co2 d2
        (Summarizer.add_transcript so (fun _ => .ok p) d s t).2.1 t2).2.1.full_transcript
    ∧ (Summarizer.add_transcript so2 co2 d2
        (Summarizer.add_transcript so (fun _ => .badJson msg) d s t).2.1 t2).2.1.word_count =
      (Summarizer.add_transcript so2 co2 d2
        (Summarizer.add_transcript so (fun _ => .ok p) d s t).2.1 t2).2.1.word_count
    ∧ (Summarizer.add_transcript so2 co2 d2
        (Summarizer.add_transcript so (fun _ => .badJson msg) d s t).2.1 t2).2.1.last_analysis_word_count =
      (Summarizer.add_transcript so2 co2 d2
        (Summarizer.add_transcript so (fun _ => .ok p) d s t).2.1 t2).2.1.last_analysis_word_count := by
  obtain ⟨g1, g2, g3, g4, g5, g6, g7⟩ := Summarizer.compress_step_spec so
    { s with full_transcript := s.full_transcript ++ [t],
             word_count := s.word_count + (pySplit t).length }
  have e1 : (Summarizer.add_transcript so (fun _ => .badJson msg) d s t).1 =
      some (Summarizer.get_error_response "Invalid JSON response from API") := by
    simp only [Summarizer.add_transcript, Summarizer.analyze_current_state, h, if_true]
  have e2 : (Summarizer.add_transcript so (fun _ => .badJson msg) d s t).2.1.full_transcript =
      s.full_transcript ++ [t] := by
    simp only [Summarizer.add_transcript, Summarizer.analyze_current_state, h, if_true]
    simpa using g4
  have e3 : (Summarizer.add_transcript so (fun _ => .badJson msg) d s t).2.1.word_count =
      s.word_count + (pySplit t).length := by
    simp only [Summarizer.add_transcript, Summarizer.analyze_current_state, h, if_true]
    simpa using g5
  have e5 : (Summarizer.add_transcript so (fun _ => .badJson msg) d s t).2.1.full_transcript =
      (Summarizer.add_transcript so (fun _ => .ok p) d s t).2.1.full_transcript := by
    simp only [Summarizer.add_transcript, Summarizer.analyze_current_state, h, if_true]
  have e6 : (Summarizer.add_transcript so (fun _ => .badJson msg) d s t).2.1.word_count =
      (Summarizer.add_transcript so (fun _ => .ok p) d s t).2.1.word_count := by
    simp only [Summarizer.add_transcript, Summarizer.analyze_current_state, h, if_true]
  have e7 : (Summarizer.add_transcript so (fun _ => .badJson msg) d s t).2.1.last_analysis_word_count =
      (Summarizer.add_transcript so (fun _ => .ok p) d s t).2.1.last_analysis_word_count := by
    simp only [Summarizer.add_transcript, Summarizer.analyze_current_state, h, if_true]
  have e8 : (Summarizer.add_transcript so (fun _ => .badJson msg) d s t).2.1.rolling_summaries =
      (Summarizer.add_transcript so (fun _ => .ok p) d s t).2.1.rolling_summaries := by
    simp only [Summarizer.add_transcript, Summarizer.analyze_current_state, h, if_true]
  have e9 : (Summarizer.add_transcript so (fun _ => .badJson msg) d s t).2.1.last_summary_word_count =
      (Summarizer.add_transcript so (fun _ => .ok p) d s t).2.1.last_summary_word_count := by
    simp only [Summarizer.add_transcript, Summarizer.analyze_current_state, h, if_true]
  obtain ⟨k1, k2, k3, k4⟩ := add_transcript_core_congr so2 co2 d2 t2
    (Summarizer.add_transcript so (fun _ => .badJson msg) d s t).2.1
    (Summarizer.add_transcript so (fun _ => .ok p) d s t).2.1
    e5 e6 e7 e8 e9
  exact ⟨e1, e2, e3, e5, e6, e7, e8, e9, k1, k2, k3, k4⟩

/-- A fifty-word segment for the C3 witness. -/
def tC3 : String := joinSp (List.replicate 50 "w")

set_option maxRecDepth 8192 in
/-- Witness for C3 at concrete inputs: starting from a fresh summarizer, a
fifty-word segment triggers an analysis pass whose completion call returns
malformed JSON. -/
theorem C3_malformed_json_isolated_witness :
    (Summarizer.add_transcript Summarizer.so_ok (fun _ => .badJson "boom") 0
        Summarizer.initState tC3).1 =
      some (Summarizer.get_error_response "Invalid JSON response from API")
    ∧ (Summarizer.add_transcript Summarizer.so_ok Summarizer.co_ok 0
        (Summarizer.add_transcript Summarizer.so_ok (fun _ => .badJson "boom") 0
          Summarizer.initState tC3).2.1 "next words").1 =
      (Summarizer.add_transcript Summarizer.so_ok Summarizer.co_ok 0
        (Summarizer.add_transcript Summarizer.so_ok (fun _ => .ok Summarizer.okParsed) 0
          Summarizer.initState tC3).2.1 "next words").1 := by
  have H := C3_malformed_json_isolated Summarizer.so_ok 0 Summarizer.initState
    tC3 "boom" Summarizer.okParsed Summarizer.so_ok Summarizer.co_ok 0
    "next words" (by decide)
  exact ⟨H.1, H.2.2.2.2.2.2.2.2.1⟩


/-! ### Helper lemmas for the IT-focused module -/

/-- `_create_rolling_summary` (module 2) touches only `rolling_summaries`. -/
theorem crs2_preserves (so : String → Except String String)
    (s : Summarizer2.SummState) :
    (Summarizer2.create_rolling_summary so s).1.full_transcript = s.full_transcript
    ∧ (Summarizer2.create_rolling_summary so s).1.word_count = s.word_count
    ∧ (Summarizer2.create_rolling_summary so s).1.last_analysis_word_count
        = s.last_analysis_word_count
    ∧ (Summarizer2.create_rolling_summary so s).1.last_summary_word_count
        = s.last_summary_word_count
    ∧ (Summarizer2.create_rolling_summary so s).1.previous_issues = s.previous_issues
    ∧ (Summarizer2.create_rolling_summary so s).1.previous_recommendations
        = s.previous_recommendations
    ∧ (Summarizer2.create_rolling_summary so s).1.latest_analysis = s.latest_analysis
    ∧ (Summarizer2.create_rolling_summary so s).2 = joinSp (lastN 5 s.full_transcript) := by
  cases h : so (joinSp (lastN 5 s.full_transcript)) <;>
    simp [Summarizer2.create_rolling_summary, h]

/-- The module-2 compression step preserves everything except the rolling
summaries and the summary counter; in particular the deduplication histories. -/
theorem compress2_preserves (so : String → Except String String)
    (s : Summarizer2.SummState) :
    (Summarizer2.compress_step so s).1.previous_issues = s.previous_issues
    ∧ (Summarizer2.compress_step so s).1.previous_recommendations
        = s.previous_recommendations
    ∧ (Summarizer2.compress_step so s).1.full_transcript = s.full_transcript
    ∧ (Summarizer2.compress_step so s).1.word_count = s.word_count
    ∧ (Summarizer2.compress_step so s).1.last_analysis_word_count
        = s.last_analysis_word_count
    ∧ (Summarizer2.compress_step so s).2 =
      (if (s.word_count : Int) - (s.last_summary_word_count : Int)
          ≥ (WORDS_PER_ROLLING_SUMMARY : Int)
        then [CallEvent.summaryCall (joinSp (lastN 5 s.full_transcript))] else []) := by
  obtain ⟨h1, h2, h3, h4, h5, h6, h7, h8⟩ := crs2_preserves so s
  by_cases hc : (WORDS_PER_ROLLING_SUMMARY : Int) ≤
      (s.word_count : Int) - (s.last_summary_word_count : Int) <;>
    simp [Summarizer2.compress_step, hc, h1, h2, h3, h5, h6, h7, h8]

/-- C9: every analysis dict handed to a caller has all required keys.  In
`summarizer.py` (keys `summary`, `action_items`, `it_insights`,
`key_decisions`) and in `summarizer_2.py` (keys `technical_analysis`,
`potential_issues`, `recommendations`, `clarifying_questions`,
`action_items`): on a parsed completion response each missing key is filled
with `[]` (or the default string for the free-text field), and on any
completion failure the error-shaped response carries all keys, with empty
lists and an `Error: ...` free-text field — for the incremental analysis pass,
for `get_final_summary`, and for `_get_error_response` itself. -/
theorem C9_required_keys_filled :
    (∀ (so : String → Except String String) (d : Nat)
       (s : Summarizer.SummState) (p : Summarizer.ParsedAnalysis),
      (Summarizer.analyze_current_state so (fun _ => .ok p) d s).1.summary
          = p.summary.getD "No summary available"
      ∧ (Summarizer.analyze_current_state so (fun _ => .ok p) d s).1.action_items
          = p.action_items.getD []
      ∧ (Summarizer.analyze_current_state so (fun _ => .ok p) d s).1.it_insights
          = p.it_insights.getD []
      ∧ (Summarizer.analyze_current_state so (fun _ => .ok p) d s).1.key_decisions
          = p.key_decisions.getD [])
    ∧ (∀ (so : String → Except String String) (d : Nat)
       (s : Summarizer.SummState) (msg : String),
      (Summarizer.analyze_current_state so (fun _ => .badJson msg) d s).1
          = Summarizer.get_error_response "Invalid JSON response from API"
      ∧ (Summarizer.analyze_current_state so (fun _ => .apiError msg) d s).1
          = Summarizer.get_error_response msg)
    ∧ (∀ (d : Nat) (s : Summarizer.SummState) (p : Summarizer.ParsedAnalysis),
      (Summarizer.get_final_summary (fun _ => .ok p) d s).summary
          = p.summary.getD "No summary available"
      ∧ (Summarizer.get_final_summary (fun _ => .ok p) d s).action_items
          = p.action_items.getD []
      ∧ (Summarizer.get_final_summary (fun _ => .ok p) d s).it_insights
          = p.it_insights.getD []
      ∧ (Summarizer.get_final_summary (fun _ => .ok p) d s).key_decisions
          = p.key_decisions.getD [])
    ∧ (∀ (d : Nat) (s : Summarizer.SummState) (msg : String),
      Summarizer.get_final_summary (fun _ => .badJson msg) d s
          = Summarizer.get_error_response msg
      ∧ Summarizer.get_final_summary (fun _ => .apiError msg) d s
          = Summarizer.get_error_response msg)
    ∧ (∀ msg : String,
      (Summarizer.get_error_response msg).summary = "Error: " ++ msg
      ∧ (Summarizer.get_error_response msg).action_items = []
      ∧ (Summarizer.get_error_response msg).it_insights = []
      ∧ (Summarizer.get_error_response msg).key_decisions = [])
    ∧ (∀ (so : String → Except String String) (d : Nat)
       (s : Summarizer2.SummState) (p : Summarizer2.ParsedAnalysis),
      (Summarizer2.analyze_current_state so (fun _ => .ok p) d s).1.technical_analysis
          = p.technical_analysis.getD "No technical discussion detected yet"
      ∧ (Summarizer2.analyze_current_state so (fun _ => .ok p) d s).1.potential_issues
          = (p.potential_issues.map
              (fun l => l.filter (fun issue => !Summarizer2.is_duplicate issue s.previous_issues))).getD []
      ∧ (Summarizer2.analyze_current_state so (fun _ => .ok p) d s).1.recommendations
          = (p.recommendations.map
              (fun l => l.filter (fun rec => !Summarizer2.is_duplicate rec s.previous_recommendations))).getD []
      ∧ (Summarizer2.analyze_current_state so (fun _ => .ok p) d s).1.clarifying_questions
          = p.clarifying_questions.getD []
      ∧ (Summarizer2.analyze_current_state so (fun _ => .ok p) d s).1.action_items
          = p.action_items.getD [])
    ∧ (∀ (so : String → Except String String) (d : Nat)
       (s : Summarizer2.SummState) (msg : String),
      (Summarizer2.analyze_current_state so (fun _ => .badJson msg) d s).1
          = Summarizer2.get_error_response "Invalid JSON from API"
      ∧ (Summarizer2.analyze_current_state so (fun _ => .apiError msg) d s).1
          = Summarizer2.get_error_response msg)
    ∧ (∀ (d : Nat) (s : Summarizer2.SummState) (p : Summarizer2.ParsedAnalysis),
      (Summarizer2.get_final_summary (fun _ => .ok p) d s).technical_analysis
          = p.technical_analysis.getD "No technical analysis available"
      ∧ (Summarizer2.get_final_summary (fun _ => .ok p) d s).potential_issues
          = p.potential_issues.getD []
      ∧ (Summarizer2.get_final_summary (fun _ => .ok p) d s).recommendations
          = p.recommendations.getD []
      ∧ (Summarizer2.get_final_summary (fun _ => .ok p) d s).clarifying_questions
          = p.clarifying_questions.getD []
      ∧ (Summarizer2.get_final_summary (fun _ => .ok p) d s).action_items
          = p.action_items.getD [])
    ∧ (∀ (d : Nat) (s : Summarizer2.SummState) (msg : String),
      Summarizer2.get_final_summary (fun _ => .badJson msg) d s
          = Summarizer2.get_error_response msg
      ∧ Summarizer2.get_final_summary (fun _ => .apiError msg) d s
          = Summarizer2.get_error_response msg)
    ∧ (∀ msg : String,
      (Summarizer2.get_error_response msg).technical_analysis = "Error: " ++ msg
      ∧ (Summarizer2.get_error_response msg).potential_issues = []
      ∧ (Summarizer2.get_error_response msg).recommendations = []
      ∧ (Summarizer2.get_error_response msg).clarifying_questions = []
      ∧ (Summarizer2.get_error_response msg).action_items = []) := by
  refine ⟨?_, ?_, ?_, ?_, ?_, ?_, ?_, ?_, ?_, ?_⟩
  · intro so d s p
    simp [Summarizer.analyze_current_state, Summarizer.fill_required]
  · intro so d s msg
    exact ⟨by simp [Summarizer.analyze_current_state],
      by simp [Summarizer.analyze_current_state]⟩
  · intro d s p
    simp [Summarizer.get_final_summary, Summarizer.fill_required]
  · intro d s msg
    exact ⟨by simp [Summarizer.get_final_summary],
      by simp [Summarizer.get_final_summary]⟩
  · intro msg
    simp [Summarizer.get_error_response]
  · intro so d s p
    obtain ⟨h1, h2, _, _, _, _⟩ := compress2_preserves so s
    simp [Summarizer2.analyze_current_state, Summarizer2.fill_required,
      Summarizer2.deduplicate_analysis, h1, h2]
  · intro so d s msg
    exact ⟨by simp [Summarizer2.analyze_current_state],
      by simp [Summarizer2.analyze_current_state]⟩
  · intro d s p
    simp [Summarizer2.get_final_summary, Summarizer2.fill_required]
  · intro d s msg
    exact ⟨by simp [Summarizer2.get_final_summary],
      by simp [Summarizer2.get_final_summary]⟩
  · intro msg
    simp [Summarizer2.get_error_response]


/-- A character list is a prefix of itself. -/
theorem prefixCheck_self (l : List Char) : prefixCheck l l = true := by
  induction l with
  | nil => rfl
  | cons a as ih => simp [prefixCheck, ih]

/-- A character list is an infix of itself. -/
theorem infixCheck_self (l : List Char) : infixCheck l l = true := by
  cases l with
  | nil => rfl
  | cons b bs => simp [infixCheck, prefixCheck_self]

/-- Python `s in s` holds. -/
theorem pyIn_self (s : String) : pyIn s s = true :=
  infixCheck_self s.toList

/-- A verbatim entry of the 10-entry lookback window is flagged as duplicate. -/
theorem is_duplicate_of_mem (i : String) (hist : List String)
    (h : i ∈ lastN 10 hist) : Summarizer2.is_duplicate i hist = true := by
  simp only [Summarizer2.is_duplicate, List.any_eq_true]
  exact ⟨i, h, by simp [pyIn_self]⟩

/-- C6: in the IT-focused summarizer, a newly produced issue (resp.
recommendation) string survives deduplication if and only if it is not,
case-insensitively, a substring of — or a superstring of — one of the last 10
entries of `previous_issues` (resp. `previous_recommendations`); a verbatim
repeat within the 10-entry lookback window is fully suppressed; and only the
surviving entries are appended to the history. -/
theorem C6_dedup_lookback (so : String → Except String String) (d : Nat)
    (s : Summarizer2.SummState) (ta : String)
    (newIssues newRecs qs ais : List String) (i : String) :
    (Summarizer2.analyze_current_state so
        (fun _ => .ok ⟨some ta, some newIssues, some newRecs, some qs, some ais⟩)
        d s).1.potential_issues =
      newIssues.filter (fun j => !Summarizer2.is_duplicate j s.previous_issues)
    ∧ (Summarizer2.analyze_current_state so
        (fun _ => .ok ⟨some ta, some newIssues, some newRecs, some qs, some ais⟩)
        d s).1.recommendations =
      newRecs.filter (fun j => !Summarizer2.is_duplicate j s.previous_recommendations)
    ∧ (Summarizer2.analyze_current_state so
        (fun _ => .ok ⟨some ta, some newIssues, some newRecs, some qs, some ais⟩)
        d s).2.1.previous_issues =
      s.previous_issues ++
        (Summarizer2.analyze_current_state so
          (fun _ => .ok ⟨some ta, some newIssues, some newRecs, some qs, some ais⟩)
          d s).1.potential_issues
    ∧ (Summarizer2.analyze_current_state so
        (fun _ => .ok ⟨some ta, some newIssues, some newRecs, some qs, some ais⟩)
        d s).2.1.previous_recommendations =
      s.previous_recommendations ++
        (Summarizer2.analyze_current_state so
          (fun _ => .ok ⟨some ta, some newIssues, some newRecs, some qs, some ais⟩)
          d s).1.recommendations
    ∧ (i ∈ lastN 10 s.previous_issues →
        i ∉ (Summarizer2.analyze_current_state so
          (fun _ => .ok ⟨some ta, some newIssues, some newRecs, some qs, some ais⟩)
          d s).1.potential_issues) := by
  obtain ⟨h1, h2, _, _, _, _⟩ := compress2_preserves so s
  refine ⟨?_, ?_, ?_, ?_, ?_⟩
  · simp [Summarizer2.analyze_current_state, Summarizer2.fill_required,
      Summarizer2.deduplicate_analysis, h1]
  · simp [Summarizer2.analyze_current_state, Summarizer2.fill_required,
      Summarizer2.deduplicate_analysis, h2]
  · simp [Summarizer2.analyze_current_state, Summarizer2.fill_required,
      Summarizer2.deduplicate_analysis, h1]
  · simp [Summarizer2.analyze_current_state, Summarizer2.fill_required,
      Summarizer2.deduplicate_analysis, h2]
  · intro hmem hin
    simp [Summarizer2.analyze_current_state, Summarizer2.fill_required,
      Summarizer2.deduplicate_analysis, h1, List.mem_filter] at hin
    exact absurd (is_duplicate_of_mem i s.previous_issues hmem) (by simp [hin.2])

/-- Concrete state for the C6 witness: one previously recorded issue. -/
def stateC6 : Summarizer2.SummState :=
  { full_transcript := [], word_count := 0, last_analysis_word_count := 0,
    rolling_summaries := [], last_summary_word_count := 0,
    previous_issues := ["Open SSH to all"], previous_recommendations := [],
    latest_analysis := none }

/-- Witness for C6 at concrete inputs: a verbatim repeat (up to case) of a
recorded issue is suppressed from the returned analysis. -/
theorem C6_dedup_lookback_witness :
    "Open SSH to all" ∈ lastN 10 stateC6.previous_issues
    ∧ "Open SSH to all" ∉ (Summarizer2.analyze_current_state
        (fun _ => .ok "s") (fun _ => .ok ⟨some "ta",
          some ["Open SSH to all", "Enable MFA"], some [], some [], some []⟩)
        0 stateC6).1.potential_issues
    ∧ (Summarizer2.analyze_current_state
        (fun _ => .ok "s") (fun _ => .ok ⟨some "ta",
          some ["Open SSH to all", "Enable MFA"], some [], some [], some []⟩)
        0 stateC6).1.potential_issues = ["Enable MFA"] := by
  refine ⟨by decide, ?_, by decide⟩
  have H := C6_dedup_lookback (fun _ => .ok "s") 0 stateC6 "ta"
    ["Open SSH to all", "Enable MFA"] [] [] [] "Open SSH to all"
  exact H.2.2.2.2 (by decide)


/-! ### Helper lemmas for the audio processor -/

/-- The recorded event of `_transcribe_buffer` carries the whole buffer and
the duration at the moment of the call; the call never changes
`is_recording`. -/
theorem tb_event (oracle : List Int → Except String String)
    (s : AudioFW.AudioState) :
    (AudioFW.transcribe_buffer oracle s).2.durationAtCall = s.buffer_duration
    ∧ (AudioFW.transcribe_buffer oracle s).2.window = s.audio_buffer
    ∧ (AudioFW.transcribe_buffer oracle s).1.is_recording = s.is_recording := by
  unfold AudioFW.transcribe_buffer
  cases h : oracle s.audio_buffer with
  | error e => simp [h]
  | ok text =>
    simp only [h]
    split <;> simp

/-- Re-seed behaviour of `_transcribe_buffer` when the buffer is strictly
longer than the overlap window. -/
theorem tb_reseed_long (oracle : List Int → Except String String)
    (s : AudioFW.AudioState) (text : String)
    (hok : oracle s.audio_buffer = .ok text)
    (h : AudioFW.overlap_samples < s.audio_buffer.length) :
    (AudioFW.transcribe_buffer oracle s).1.audio_buffer
        = lastN AudioFW.overlap_samples s.audio_buffer
    ∧ (AudioFW.transcribe_buffer oracle s).1.buffer_duration
        = AudioFW.OVERLAP_SECONDS := by
  unfold AudioFW.transcribe_buffer
  simp [hok, h]

/-- Re-seed behaviour of `_transcribe_buffer` when the buffer is not longer
than the overlap window: the buffer is cleared. -/
theorem tb_reseed_short (oracle : List Int → Except String String)
    (s : AudioFW.AudioState) (text : String)
    (hok : oracle s.audio_buffer = .ok text)
    (h : ¬ AudioFW.overlap_samples < s.audio_buffer.length) :
    (AudioFW.transcribe_buffer oracle s).1.audio_buffer = []
    ∧ (AudioFW.transcribe_buffer oracle s).1.buffer_duration = 0 := by
  unfold AudioFW.transcribe_buffer
  simp [hok, h]

/-- When the Whisper call (or the callback) raises, the caught exception
leaves the processor state exactly as it was: no re-seed, no clear. -/
theorem tb_error (oracle : List Int → Except String String)
    (s : AudioFW.AudioState) (msg : String)
    (herr : oracle s.audio_buffer = .error msg) :
    (AudioFW.transcribe_buffer oracle s).1 = s := by
  unfold AudioFW.transcribe_buffer
  simp [herr]

/-- One `stop_recording` call: it flushes (one transcription, on the whole
residual buffer) iff the residual duration exceeds one second, and otherwise
leaves the state unchanged apart from `is_recording := false`. -/
theorem stop_cases (oracle : List Int → Except String String)
    (s : AudioFW.AudioState) :
    ((AudioFW.stop_recording oracle s).2 ≠ [] ↔ 1 < s.buffer_duration)
    ∧ ((AudioFW.stop_recording oracle s).2.map (fun ev => ev.window))
        = (if 1 < s.buffer_duration then [s.audio_buffer] else [])
    ∧ ((AudioFW.stop_recording oracle s).2.map (fun ev => ev.durationAtCall))
        = (if 1 < s.buffer_duration then [s.buffer_duration] else [])
    ∧ (¬ 1 < s.buffer_duration →
        (AudioFW.stop_recording oracle s).1 = { s with is_recording := false })
    ∧ (AudioFW.stop_recording oracle s).1.is_recording = false := by
  obtain ⟨e1, e2, e3⟩ := tb_event oracle { s with is_recording := false }
  by_cases h : 1 < s.buffer_duration <;>
    simp [AudioFW.stop_recording, h, e1, e2, e3]

/-- A state whose `is_recording` is already `false` is unchanged by setting
`is_recording := false`. -/
theorem set_not_recording (s : AudioFW.AudioState) (h : s.is_recording = false) :
    ({ s with is_recording := false } : AudioFW.AudioState) = s := by
  cases s
  simp_all

/-- Every transcription during the processing loop happens at a buffer
duration of at least `CHUNK_DURATION_SECONDS`. -/
theorem loop_events_above_threshold (oracle : List Int → Except String String)
    (chunks : List (List Int)) :
    ∀ s : AudioFW.AudioState,
      ((AudioFW.processing_loop oracle s chunks).2.all
        (fun ev => AudioFW.CHUNK_DURATION_SECONDS ≤ ev.durationAtCall)) = true := by
  induction chunks with
  | nil => intro s; rfl
  | cons c cs ih =>
    intro s
    obtain ⟨e1, _, _⟩ := tb_event oracle
      { s with audio_buffer := s.audio_buffer ++ c,
               buffer_duration := s.buffer_duration + (c.length : ℚ) / (AudioFW.RATE : ℚ) }
    by_cases h : AudioFW.CHUNK_DURATION_SECONDS ≤
        s.buffer_duration + (c.length : ℚ) / (AudioFW.RATE : ℚ) <;>
      simp [AudioFW.processing_loop, AudioFW.process_chunk, h, e1, ih]


/-- Concrete state for C4: exactly three seconds of audio, duration counter
consistent with the buffer length — a threshold-triggered call. -/
def stateC4 : AudioFW.AudioState :=
  { is_recording := true, audio_buffer := List.replicate 48000 0,
    buffer_duration := 3 }

/-- C4 as stated is false: the re-seed sits inside `_transcribe_buffer`'s
try block, so when the Whisper call raises during a threshold-triggered call
the caught exception skips the re-seed entirely.  Concretely: at a consistent
3-second buffer (48000 samples) with a raising transcription, the buffer
stays 48000 samples (not the trailing 24000) and the duration stays 3 (not
1.5). -/
theorem C4_counterexample :
    stateC4.buffer_duration = (stateC4.audio_buffer.length : ℚ) / (AudioFW.RATE : ℚ)
    ∧ AudioFW.CHUNK_DURATION_SECONDS ≤ stateC4.buffer_duration
    ∧ (AudioFW.transcribe_buffer AudioFW.crashOracle stateC4).1.buffer_duration = 3
    ∧ (3 : ℚ) ≠ AudioFW.OVERLAP_SECONDS
    ∧ (AudioFW.transcribe_buffer AudioFW.crashOracle stateC4).1.audio_buffer.length
        = 48000
    ∧ (48000 : Nat) ≠ AudioFW.overlap_samples := by
  refine ⟨?_, ?_, rfl, ?_, ?_, ?_⟩
  · show (3 : ℚ) = ((List.replicate 48000 (0:Int)).length : ℚ) / (AudioFW.RATE : ℚ)
    rw [List.length_replicate]
    norm_num [AudioFW.RATE]
  · show AudioFW.CHUNK_DURATION_SECONDS ≤ (3 : ℚ)
    norm_num [AudioFW.CHUNK_DURATION_SECONDS]
  · norm_num [AudioFW.OVERLAP_SECONDS]
  · show (List.replicate 48000 (0:Int)).length = 48000
    exact List.length_replicate 48000 0
  · norm_num [AudioFW.overlap_samples]

/-- C4 amended: after a threshold-triggered transcription call (buffer
duration at least `CHUNK_DURATION_SECONDS = 3`, duration counter consistent
with the buffer length) whose Whisper call returns without raising, the
buffer is re-seeded with exactly the trailing `OVERLAP_SECONDS = 1.5` seconds
— `overlap_samples = 24000` samples — and the duration counter is reset to
`OVERLAP_SECONDS` (the buffer-shorter-than-overlap case cannot arise at
threshold, since three seconds of audio is 48000 samples); when the Whisper
call raises, the caught exception leaves the buffer and the duration counter
exactly as they were — no re-seed. -/
theorem C4_overlap_reseed (oracle : List Int → Except String String)
    (s : AudioFW.AudioState) (text msg : String)
    (hcons : s.buffer_duration = (s.audio_buffer.length : ℚ) / (AudioFW.RATE : ℚ))
    (htrig : AudioFW.CHUNK_DURATION_SECONDS ≤ s.buffer_duration) :
    (oracle s.audio_buffer = .ok text →
      (AudioFW.transcribe_buffer oracle s).1.audio_buffer
          = lastN AudioFW.overlap_samples s.audio_buffer
      ∧ (AudioFW.transcribe_buffer oracle s).1.audio_buffer.length
          = AudioFW.overlap_samples
      ∧ (AudioFW.transcribe_buffer oracle s).1.buffer_duration
          = AudioFW.OVERLAP_SECONDS)
    ∧ (oracle s.audio_buffer = .error msg →
        (AudioFW.transcribe_buffer oracle s).1 = s) := by
  have hlen : AudioFW.overlap_samples < s.audio_buffer.length := by
    rw [hcons] at htrig
    simp only [AudioFW.CHUNK_DURATION_SECONDS, AudioFW.RATE] at htrig
    have h48 : (48000 : ℚ) ≤ (s.audio_buffer.length : ℚ) := by
      have := (le_div_iff₀ (by norm_num : (0:ℚ) < ((16000:ℕ) : ℚ))).mp htrig
      calc (48000 : ℚ) = 3 * ((16000:ℕ) : ℚ) := by norm_num
        _ ≤ _ := this
    have h48n : (48000 : ℕ) ≤ s.audio_buffer.length := by exact_mod_cast h48
    simp only [AudioFW.overlap_samples]
    omega
  refine ⟨fun hok => ?_, fun herr => tb_error oracle s msg herr⟩
  obtain ⟨r1, r2⟩ := tb_reseed_long oracle s text hok hlen
  refine ⟨r1, ?_, r2⟩
  rw [r1, lastN_eq_drop, List.length_drop]
  simp only [AudioFW.overlap_samples] at hlen ⊢
  omega

/-- Witness for the amended C4 at a concrete threshold-triggered call, on
both the successful path (silent Whisper) and the raising path. -/
theorem C4_overlap_reseed_witness :
    stateC4.buffer_duration = (stateC4.audio_buffer.length : ℚ) / (AudioFW.RATE : ℚ)
    ∧ AudioFW.CHUNK_DURATION_SECONDS ≤ stateC4.buffer_duration
    ∧ ((AudioFW.transcribe_buffer AudioFW.silentOracle stateC4).1.audio_buffer
        = lastN AudioFW.overlap_samples stateC4.audio_buffer
      ∧ (AudioFW.transcribe_buffer AudioFW.silentOracle stateC4).1.audio_buffer.length
        = AudioFW.overlap_samples
      ∧ (AudioFW.transcribe_buffer AudioFW.silentOracle stateC4).1.buffer_duration
        = AudioFW.OVERLAP_SECONDS)
    ∧ (AudioFW.transcribe_buffer AudioFW.crashOracle stateC4).1 = stateC4 := by
  have hcons : stateC4.buffer_duration
      = (stateC4.audio_buffer.length : ℚ) / (AudioFW.RATE : ℚ) := by
    show (3 : ℚ) = ((List.replicate 48000 (0:Int)).length : ℚ) / (AudioFW.RATE : ℚ)
    rw [List.length_replicate]
    norm_num [AudioFW.RATE]
  have htrig : AudioFW.CHUNK_DURATION_SECONDS ≤ stateC4.buffer_duration := by
    show AudioFW.CHUNK_DURATION_SECONDS ≤ (3 : ℚ)
    norm_num [AudioFW.CHUNK_DURATION_SECONDS]
  exact ⟨hcons, htrig,
    (C4_overlap_reseed AudioFW.silentOracle stateC4 "" "x" hcons htrig).1 rfl,
    (C4_overlap_reseed AudioFW.crashOracle stateC4 "" "whisper error"
      hcons htrig).2 rfl⟩

/-- C8: the processing loop invokes transcription only at accumulated buffer
durations of at least `CHUNK_DURATION_SECONDS = 3`; the only exception is the
explicit flush in `stop_recording`, which performs exactly one final
transcription on the whole residual buffer iff its duration exceeds one
second, and otherwise transcribes nothing (the residual is discarded
silently). -/
theorem C8_transcription_thresholds (oracle : List Int → Except String String)
    (s : AudioFW.AudioState) (chunks : List (List Int)) :
    ((AudioFW.processing_loop oracle s chunks).2.all
        (fun ev => AudioFW.CHUNK_DURATION_SECONDS ≤ ev.durationAtCall)) = true
    ∧ ((AudioFW.stop_recording oracle s).2 ≠ [] ↔ 1 < s.buffer_duration)
    ∧ ((AudioFW.stop_recording oracle s).2.map (fun ev => ev.window))
        = (if 1 < s.buffer_duration then [s.audio_buffer] else []) :=
  ⟨loop_events_above_threshold oracle chunks s, (stop_cases oracle s).1,
    (stop_cases oracle s).2.1⟩

/-- Processing a single chunk that does not reach the duration threshold only
extends the buffer. -/
theorem loop_one_chunk_no_trigger (oracle : List Int → Except String String)
    (s : AudioFW.AudioState) (c : List Int)
    (h : ¬ (AudioFW.CHUNK_DURATION_SECONDS ≤
      s.buffer_duration + (c.length : ℚ) / (AudioFW.RATE : ℚ))) :
    AudioFW.processing_loop oracle s [c] =
      ({ s with audio_buffer := s.audio_buffer ++ c,
                buffer_duration := s.buffer_duration + (c.length : ℚ) / (AudioFW.RATE : ℚ) },
        []) := by
  simp only [AudioFW.processing_loop, AudioFW.process_chunk]
  rw [if_neg h]
  rfl

/-- A stop whose flush runs on a buffer longer than the overlap window leaves
the re-seeded duration `OVERLAP_SECONDS`. -/
theorem stop_flush_dur (oracle : List Int → Except String String)
    (s : AudioFW.AudioState) (text : String)
    (hok : oracle s.audio_buffer = .ok text)
    (hd : 1 < s.buffer_duration)
    (hl : AudioFW.overlap_samples < s.audio_buffer.length) :
    (AudioFW.stop_recording oracle s).1.buffer_duration
      = AudioFW.OVERLAP_SECONDS := by
  simp only [AudioFW.stop_recording]
  rw [if_pos (show 1 < ({ s with is_recording := false } :
    AudioFW.AudioState).buffer_duration from hd)]
  exact (tb_reseed_long oracle _ text
    (show oracle ({ s with is_recording := false } :
      AudioFW.AudioState).audio_buffer = .ok text from hok)
    (show AudioFW.overlap_samples <
      ({ s with is_recording := false } : AudioFW.AudioState).audio_buffer.length from hl)).2

/-- C5 as stated is false: after a stop whose flush re-seeded a 1.5-second
overlap, a second `stop_recording` call performs a further transcription.
Concretely: one 40000-sample chunk (2.5 s) is processed without reaching the
3-second threshold; the first stop flushes it (2.5 s > 1 s) and re-seeds
1.5 s of overlap; the second stop then transcribes again (1.5 s > 1 s),
instead of reporting "not recording" and doing nothing. -/
theorem C5_counterexample :
    ((AudioFW.stop_recording AudioFW.silentOracle
        ((AudioFW.stop_recording AudioFW.silentOracle
          ((AudioFW.processing_loop AudioFW.silentOracle
            (AudioFW.start_recording AudioFW.initState)
            [List.replicate 40000 0]).1)).1)).2).length = 1 := by
  have hq : ¬ (AudioFW.CHUNK_DURATION_SECONDS ≤
      (0:ℚ) + ((List.replicate 40000 (0:Int)).length : ℚ) / (AudioFW.RATE : ℚ)) := by
    rw [List.length_replicate]
    norm_num [AudioFW.CHUNK_DURATION_SECONDS, AudioFW.RATE]
  have e1 : AudioFW.processing_loop AudioFW.silentOracle
      (⟨true, [], 0⟩ : AudioFW.AudioState) [List.replicate 40000 0] =
      ((⟨true, [] ++ List.replicate 40000 0,
        0 + ((List.replicate 40000 (0:Int)).length : ℚ) / (AudioFW.RATE : ℚ)⟩ :
          AudioFW.AudioState), []) :=
    loop_one_chunk_no_trigger AudioFW.silentOracle _ _ hq
  have e2 : ([] : List Int) ++ List.replicate 40000 (0:Int)
      = List.replicate 40000 0 := List.nil_append _
  have e3 : (0:ℚ) + ((List.replicate 40000 (0:Int)).length : ℚ) / (AudioFW.RATE : ℚ)
      = 5/2 := by
    rw [List.length_replicate]
    norm_num [AudioFW.RATE]
  rw [show AudioFW.start_recording AudioFW.initState
      = (⟨true, [], 0⟩ : AudioFW.AudioState) from rfl, e1]
  dsimp only
  rw [e2, e3]
  have hdur1 : (1:ℚ) < (5/2 : ℚ) := by norm_num
  have hlen : AudioFW.overlap_samples <
      ((⟨true, List.replicate 40000 0, 5/2⟩ : AudioFW.AudioState)).audio_buffer.length := by
    show AudioFW.overlap_samples < (List.replicate 40000 (0:Int)).length
    rw [List.length_replicate]
    norm_num [AudioFW.overlap_samples]
  have hstop1 : (AudioFW.stop_recording AudioFW.silentOracle
      (⟨true, List.replicate 40000 0, 5/2⟩ : AudioFW.AudioState)).1.buffer_duration
      = AudioFW.OVERLAP_SECONDS :=
    stop_flush_dur AudioFW.silentOracle _ "" rfl hdur1 hlen
  have hdur2 : 1 < (AudioFW.stop_recording AudioFW.silentOracle
      (⟨true, List.replicate 40000 0, 5/2⟩ : AudioFW.AudioState)).1.buffer_duration := by
    rw [hstop1]
    norm_num [AudioFW.OVERLAP_SECONDS]
  have hmap := (stop_cases AudioFW.silentOracle
    ((AudioFW.stop_recording AudioFW.silentOracle
      (⟨true, List.replicate 40000 0, 5/2⟩ : AudioFW.AudioState)).1)).2.2.1
  rw [if_pos hdur2] at hmap
  calc ((AudioFW.stop_recording AudioFW.silentOracle
      ((AudioFW.stop_recording AudioFW.silentOracle
        (⟨true, List.replicate 40000 0, 5/2⟩ : AudioFW.AudioState)).1)).2).length
      = (((AudioFW.stop_recording AudioFW.silentOracle
          ((AudioFW.stop_recording AudioFW.silentOracle
            (⟨true, List.replicate 40000 0, 5/2⟩ : AudioFW.AudioState)).1)).2).map
            (fun ev => ev.durationAtCall)).length := (List.length_map _ _).symm
    _ = 1 := by rw [hmap]; rfl

/-- C5 amended: `stop_recording` has no not-recording guard; a second call
repeats the cleanup and performs one further transcription exactly when the
residual duration retained by the first stop exceeds one second (which happens
whenever the first stop's flush re-seeded the 1.5-second overlap); when that
residual duration is at most one second the second call transcribes nothing
and leaves the state unchanged. -/
theorem C5_amended_second_stop (oracle : List Int → Except String String)
    (s : AudioFW.AudioState) :
    ((AudioFW.stop_recording oracle
        ((AudioFW.stop_recording oracle s).1)).2 ≠ []
      ↔ 1 < (AudioFW.stop_recording oracle s).1.buffer_duration)
    ∧ ((AudioFW.stop_recording oracle s).1.buffer_duration ≤ 1 →
        (AudioFW.stop_recording oracle
            ((AudioFW.stop_recording oracle s).1)).1
          = (AudioFW.stop_recording oracle s).1
        ∧ (AudioFW.stop_recording oracle
            ((AudioFW.stop_recording oracle s).1)).2 = []) := by
  obtain ⟨i1, _, _, i4, _⟩ :=
    stop_cases oracle ((AudioFW.stop_recording oracle s).1)
  have j5 := (stop_cases oracle s).2.2.2.2
  refine ⟨i1, fun hle => ?_⟩
  have hnot : ¬ 1 < (AudioFW.stop_recording oracle s).1.buffer_duration :=
    not_lt.mpr hle
  have hnil : (AudioFW.stop_recording oracle
      ((AudioFW.stop_recording oracle s).1)).2 = [] :=
    not_ne_iff.mp (fun hne => hnot (i1.mp hne))
  exact ⟨(i4 hnot).trans (set_not_recording _ j5), hnil⟩

/-- Witness for the amended C5: from a fresh processor, the first stop leaves
no residual, and the second stop is a strict no-op. -/
theorem C5_amended_second_stop_witness :
    (AudioFW.stop_recording AudioFW.silentOracle AudioFW.initState).1.buffer_duration ≤ 1
    ∧ ((AudioFW.stop_recording AudioFW.silentOracle
          ((AudioFW.stop_recording AudioFW.silentOracle AudioFW.initState).1)).1
        = (AudioFW.stop_recording AudioFW.silentOracle AudioFW.initState).1
      ∧ (AudioFW.stop_recording AudioFW.silentOracle
          ((AudioFW.stop_recording AudioFW.silentOracle AudioFW.initState).1)).2 = []) := by
  have hle : (AudioFW.stop_recording AudioFW.silentOracle
      AudioFW.initState).1.buffer_duration ≤ 1 := by
    have h0 : ¬ (1:ℚ) < AudioFW.initState.buffer_duration := by
      norm_num [AudioFW.initState]
    rw [(stop_cases AudioFW.silentOracle AudioFW.initState).2.2.2.1 h0]
    norm_num [AudioFW.initState]
  exact ⟨hle, (C5_amended_second_stop AudioFW.silentOracle AudioFW.initState).2 hle⟩

end MeetingAnalyzer
